import Mathlib

/-!
Shallow embedding of the telegram-ingress-code-forwarder core
(src/bot.py, src/libsqlite.py).

The sqlite tables from libsqlite.py are modelled as Lean lists:
the "code" table as a list of rows (str, message_id, fr), the
"history" table as a list of (str, send_by) pairs, and the "users"
table as the list of authorized ids.  The redis layer of bot.py is
modelled as the `authorized` id set (set "tracker_user") and the
`flood` map (keys flood_<uid> with an absolute expiry instant;
`ex=timeout` on `set` becomes expiry = now + timeout).  The mutable
owner list of the Tracker object, and the message-id counter used to
model the ids Telegram assigns to channel posts, complete the state.

Python string operations are modelled structurally on the character
list of the Lean string: str.lower as ASCII lower-casing, the regex
class \w of PASSCODE_EXP as ASCII alphanumerics plus underscore,
str.splitlines as splitting on the newline character, int() as an
optional sign followed by ASCII digits.  The claims only exercise
ASCII inputs.  Outbound pyrogram calls (msg.reply,
client.send_message, message edits, callback answers) are recorded
as a list of `Out` actions, in the order the source issues them.
Handlers that can raise in Python (IndexError / ValueError on
malformed input) return an `Option`, with `none` standing for the
uncaught exception.
-/

namespace Forwarder

/-- ASCII model of Python str.lower on one character. -/
def lowerChar (c : Char) : Char :=
  if 'A' ≤ c ∧ c ≤ 'Z' then Char.ofNat (c.toNat + 32) else c

/-- ASCII model of Python str.lower. -/
def pyLower (s : String) : String := ⟨s.data.map lowerChar⟩

/-- ASCII model of the regex class \w. -/
def isWordChar (c : Char) : Bool := c.isAlphanum || c == '_'

/-- PASSCODE_EXP.match: the full text matches ^\w{5,35}$ (bot.py line 45). -/
def passcodeMatch (s : String) : Bool :=
  decide (5 ≤ s.data.length) && decide (s.data.length ≤ 35) && s.data.all isWordChar

/-- Split a character list on a separator character, keeping empty
fragments. -/
def splitCharsOn (sep : Char) : List Char → List (List Char)
  | [] => [[]]
  | c :: cs =>
    match splitCharsOn sep cs, decide (c = sep) with
    | r, true => [] :: r
    | [], false => [[c]]
    | h :: t, false => (c :: h) :: t

/-- Python str.splitlines(False), for texts whose only line separators are
newline characters.  A trailing newline produces a trailing empty fragment
here where Python produces none; the multi-line loop skips empty lines, so
the two readings act identically. -/
def pySplitlines (s : String) : List String :=
  (splitCharsOn '\n' s.data).map (fun l => (⟨l⟩ : String))

/-- Python str.split() on the space-separated callback payloads: split on
spaces and drop empty fragments. -/
def splitWords (s : String) : List String :=
  ((splitCharsOn ' ' s.data).map (fun l => (⟨l⟩ : String))).filter (fun w => w ≠ "")

/-- Python str.startswith for a single-character marker. -/
def startsWithChar (s : String) (c : Char) : Bool :=
  match s.data with
  | [] => false
  | c0 :: _ => c0 == c

/-- Nat value of a list of ASCII digits. -/
def digitsToNat (l : List Char) : Nat :=
  l.foldl (fun n c => n * 10 + (c.toNat - 48)) 0

/-- Python int() on a string: optional minus sign then ASCII digits; none
models the ValueError on anything else. -/
def pyInt (s : String) : Option Int :=
  match s.data with
  | [] => none
  | '-' :: ds =>
    if ds ≠ [] && ds.all (fun c => c.isDigit) then some (-(digitsToNat ds : Int))
    else none
  | ds =>
    if ds.all (fun c => c.isDigit) then some ((digitsToNat ds : Int)) else none

/-- Join strings with a separator (Python str.join). -/
def joinSep (sep : String) : List String → String
  | [] => ""
  | [x] => x
  | x :: y :: xs => x ++ sep ++ joinSep sep (y :: xs)

/-- One row of the "code" table (libsqlite.py lines 39-44). -/
structure CodeRow where
  str : String
  message_id : Int
  fr : Bool
deriving DecidableEq

/-- CodeStatus dataclass (libsqlite.py lines 59-66). -/
structure CodeStatus where
  message_id : Int
  FR : Bool
deriving DecidableEq

/-- PasscodeTracker.query (libsqlite.py lines 107-113): first row whose key
equals the lower-cased code. -/
def query (db : List CodeRow) (code : String) : Option CodeStatus :=
  (db.find? (fun r => r.str == pyLower code)).map (fun r => ⟨r.message_id, r.fr⟩)

/-- PasscodeTracker.update (libsqlite.py lines 115-119): set fr on every row
whose key equals the lower-cased code. -/
def update (db : List CodeRow) (code : String) (fr : Bool) : List CodeRow :=
  db.map (fun r => if r.str == pyLower code then ⟨r.str, r.message_id, fr⟩ else r)

/-- PasscodeTracker.insert (libsqlite.py lines 121-125): append a row with
the lower-cased key and fr = 0. -/
def insert (db : List CodeRow) (code : String) (message_id : Int) : List CodeRow :=
  db ++ [⟨pyLower code, message_id, false⟩]

/-- PasscodeTracker.insert_history (libsqlite.py lines 127-131). -/
def insert_history (h : List (String × Int)) (s : String) (sender : Int) :
    List (String × Int) :=
  h ++ [(pyLower s, sender)]

/-- PasscodeTracker.query_history (libsqlite.py lines 133-140): send_by of the
first history row whose key has the lower-cased argument as a prefix
(SQL LIKE with a trailing percent). -/
def query_history (h : List (String × Int)) (s : String) : Option Int :=
  (h.find? (fun p => List.isPrefixOf (pyLower s).data p.1.data)).map (fun p => p.2)

/-- The whole mutable state of the system: sqlite tables, redis keys, the
Tracker's owner list, and the counter modelling channel message ids. -/
structure SysState where
  code : List CodeRow
  history : List (String × Int)
  usersTbl : List Int
  authorized : List Int
  flood : List (Int × Nat)
  owners : List Int
  nextMsgId : Int
deriving DecidableEq

/-- Outbound transport actions, recorded in the order the source awaits or
gathers them. -/
inductive Out where
  | reply (chat : Int) (text : String)
  | replyMarkup (chat : Int) (text : String) (buttons : List (List (String × String)))
  | sendChannel (channel : Int) (message_id : Int) (text : String)
  | sendUser (uid : Int) (text : String)
  | sendUserMarkup (uid : Int) (text : String) (buttons : List (List (String × String)))
  | editChannel (channel : Int) (message_id : Int) (text : String)
  | editMarkup (buttons : List (List (String × String)))
  | answer (text : Option String)
  | editStatus (text : String)
deriving DecidableEq

/-- Tracker.query_authorized_user (bot.py lines 230-231): redis set lookup. -/
def query_authorized_user (st : SysState) (uid : Int) : Bool := uid ∈ st.authorized

/-- Tracker.insert_authorized_user (bot.py lines 233-236): sqlite insert_user
plus redis sadd. -/
def insert_authorized_user (uid : Int) (st : SysState) : SysState :=
  { st with
    usersTbl := st.usersTbl ++ [uid]
    authorized := if uid ∈ st.authorized then st.authorized else st.authorized ++ [uid] }

/-- Tracker.delete_authorized_user (bot.py lines 238-241): sqlite delete_user
plus redis srem. -/
def delete_authorized_user (uid : Int) (st : SysState) : SysState :=
  { st with
    usersTbl := st.usersTbl.filter (fun x => x ≠ uid)
    authorized := st.authorized.filter (fun x => x ≠ uid) }

/-- The flood_<uid> redis key is live: present and not yet expired. -/
def flood_active (st : SysState) (now : Nat) (uid : Int) : Bool :=
  match st.flood.lookup uid with
  | some e => decide (now < e)
  | none => false

/-- Tracker.flood_check (bot.py lines 243-247): when no live key exists, arm
one expiring timeout seconds from now and report False; otherwise report True
and touch nothing. -/
def flood_check (st : SysState) (now : Nat) (uid : Int) (timeout : Nat) :
    Bool × SysState :=
  if flood_active st now uid then (true, st)
  else (false,
    { st with flood := (uid, now + timeout) :: st.flood.filter (fun p => p.1 ≠ uid) })

/-- Tracker.handle_passcode, single-line path (bot.py lines 96-113); the
dispatch on an embedded newline is handle_passcode below. -/
def handle_single_passcode (channel : Int) (st : SysState) (chat : Int)
    (text : String) : SysState × List Out :=
  if 30 < text.data.length then (st, [Out.reply chat "Passcode length exceed"])
  else if passcodeMatch text = false then (st, [Out.reply chat "Passcode format error"])
  else
    match query st.code text with
    | none =>
      let mid := st.nextMsgId
      ({ st with
          code := insert st.code text mid
          history := insert_history st.history text chat
          nextMsgId := mid + 1 },
        [Out.sendChannel channel mid ("<code>" ++ text ++ "</code>"),
         Out.reply chat "Send successful"])
    | some result =>
      (st, [Out.replyMarkup chat
        ("Passcode exist, " ++
          (if result.FR then "undo mark" else "mark passcode") ++ " as FR?")
        [[("Process",
            (if result.FR then "u" else "m") ++ " " ++ text ++ " " ++
              toString result.message_id)]]])

/-- Tracker.parse_codes (bot.py lines 121-124). -/
def parse_codes (passcodes : List String) (header : String) : String :=
  if passcodes.isEmpty then ""
  else header ++ " codes:\n<code>" ++
    joinSep "</code>\n<code>" passcodes ++ "</code>\n"

/-- Loop accumulator of Tracker.handle_multiline_passcode (bot.py lines
126-147): state, success count, error and duplicate lists, whether the
status notice has been sent, and the outbound actions so far. -/
structure MLAcc where
  st : SysState
  count : Nat
  error_codes : List String
  duplicate_codes : List String
  statusStarted : Bool
  outs : List Out
deriving DecidableEq

/-- One iteration of the line loop of Tracker.handle_multiline_passcode
(bot.py lines 131-147). -/
def ml_step (chat : Int) (channel : Int) (acc : MLAcc) (passcode : String) :
    MLAcc :=
  if passcode = "" || startsWithChar passcode '#' then acc
  else if 35 < passcode.data.length || passcodeMatch passcode = false then
    { acc with error_codes := acc.error_codes ++ [passcode] }
  else
    match query acc.st.code passcode with
    | none =>
      let statusOuts :=
        if acc.statusStarted then ([] : List Out)
        else [Out.reply chat "Sending passcode (interval: 2s)"]
      let mid := acc.st.nextMsgId
      { st := { acc.st with
                  code := insert acc.st.code passcode mid
                  history := insert_history acc.st.history passcode chat
                  nextMsgId := mid + 1 }
        count := acc.count + 1
        error_codes := acc.error_codes
        duplicate_codes := acc.duplicate_codes
        statusStarted := true
        outs := acc.outs ++ statusOuts ++
          [Out.sendChannel channel mid ("<code>" ++ passcode ++ "</code>")] }
    | some _ => { acc with duplicate_codes := acc.duplicate_codes ++ [passcode] }

/-- Tracker.handle_multiline_passcode (bot.py lines 126-154). -/
def handle_multiline_passcode (channel : Int) (st : SysState) (chat : Int)
    (text : String) : SysState × List Out :=
  let acc := (pySplitlines text).foldl (ml_step chat channel)
    ⟨st, 0, [], [], false, []⟩
  let error_msg := parse_codes acc.error_codes "Error"
  let duplicate_msg := parse_codes acc.duplicate_codes "Duplicate"
  let summary := error_msg ++ "\n" ++ duplicate_msg ++ "\nSuccess send: " ++
    toString acc.count ++ " passcode(s)"
  (acc.st, acc.outs ++
    [if acc.statusStarted then Out.editStatus summary else Out.reply chat summary])

/-- Tracker.handle_passcode (bot.py lines 93-113): dispatch to the multi-line
loop when the text contains a newline, else the single-line path. -/
def handle_passcode (channel : Int) (st : SysState) (chat : Int)
    (text : String) : SysState × List Out :=
  if '\n' ∈ text.data then handle_multiline_passcode channel st chat text
  else handle_single_passcode channel st chat text

/-- Tracker.handle_callback_query (bot.py lines 156-198).  `none` models the
uncaught IndexError on empty data or ValueError from int() on a non-numeric
third token. -/
def handle_callback_query (channel : Int) (st : SysState) (data : String) :
    Option (SysState × List Out) :=
  match splitWords data with
  | [] => none
  | [a0, a1, a2] =>
    if a0 = "account" then
      match pyInt a2 with
      | none => none
      | some uid =>
        if a1 = "grant" then
          let granted := query_authorized_user st uid
          let st1 := if granted then st else insert_authorized_user uid st
          some (st1,
            [Out.editMarkup [[("Revoke", "account revoke " ++ toString uid)]],
             Out.answer (if granted then some "Already granted" else none),
             Out.sendUser uid "Access granted"])
        else if a1 = "deny" then
          if query_authorized_user st uid then
            some (st, [Out.editMarkup [], Out.answer (some "Out of dated")])
          else
            some (st, [Out.editMarkup [], Out.sendUser uid "Access denied",
              Out.answer none])
        else if a1 = "revoke" then
          some (delete_authorized_user uid st,
            [Out.editMarkup [], Out.sendUser uid "Access revoked", Out.answer none])
        else some (st, [])
    else
      match pyInt a2 with
      | none => none
      | some mid =>
        let msgTxt :=
          if a0 = "m" then "<del>" ++ a1 ++ "</del>"
          else "<code>" ++ a1 ++ "</code>"
        some ({ st with code := update st.code a1 (a0 = "m") },
          [Out.editChannel channel mid msgTxt, Out.editMarkup [], Out.answer none])
  | a0 :: _ =>
    if a0 = "ignore" then some (st, [Out.editMarkup [], Out.answer none])
    else some (st, [])

/-- Tracker.handle_auth (bot.py lines 200-224).  `command` models
msg.command, whose head is the command word "auth"; `pw` is the configured
shared secret and `now` the instant the request arrives. -/
def handle_auth (pw : String) (st : SysState) (now : Nat) (chat : Int)
    (command : List String) : SysState × List Out :=
  let checked := flood_check st now chat 1200
  if checked.1 then (checked.2, [])
  else
    let st1 := checked.2
    if query_authorized_user st1 chat then (st1, [Out.reply chat "Already authorized"])
    else if command.length = 1 then
      (st1, st1.owners.map (fun o =>
        Out.sendUserMarkup o
          ("User [" ++ toString chat ++ "](tg://user?id=" ++ toString chat ++
            ") request to grant talk power")
          [[("Agree", "account grant " ++ toString chat),
            ("Deny", "account deny " ++ toString chat)],
           [("Ignore", "ignore")]]))
    else if command.length = 2 ∧ command.getD 1 "" = pw then
      let st2 := insert_authorized_user chat st1
      if st2.owners.length ≠ 0 then (st2, [Out.reply chat "Authorized"])
      else ({ st2 with owners := st2.owners ++ [chat] },
        [Out.reply chat "Authorized as owner"])
    else (st1, [])

/-- Tracker.query_history (bot.py lines 263-272).  `none` models the uncaught
ValueError when msg.command has fewer than two entries (the tuple unpacking
on line 267). -/
def query_history_cmd (st : SysState) (chat : Int) (command : List String) :
    Option (SysState × List Out) :=
  if 2 < command.length then some (st, [Out.reply chat "Query format error."])
  else
    match command with
    | [_, code] =>
      match query_history st.history code with
      | some sender => some (st, [Out.reply chat ("Find match => " ++ toString sender)])
      | none => some (st, [Out.reply chat "404 Not found"])
    | _ => none

/-- Number of rows of the "code" table holding a given key. -/
def countKey (db : List CodeRow) (k : String) : Nat :=
  db.countP (fun r => r.str == k)

/-- Tracker.delete_user_manual (bot.py lines 274-282), with the guard exactly
as written in the source: the body runs only when len(msg.command) is NOT 2.
`none` models the uncaught IndexError on msg.command[1] when the command has
no argument, or the ValueError from int(). -/
def delete_user_manual (st : SysState) (chat : Int) (command : List String) :
    Option (SysState × List Out) :=
  if command.length ≠ 2 then
    match command.get? 1 with
    | none => none
    | some s =>
      match pyInt s with
      | none => none
      | some uid =>
        if query_authorized_user st uid then
          some (delete_authorized_user uid st,
            [Out.sendUser uid "Access revoked", Out.reply chat "Success"])
        else some (st, [Out.reply chat "User not in authorized list"])
  else some (st, [])



theorem toNat_ofNat_valid (n : Nat) (h : n.isValidChar) : (Char.ofNat n).toNat = n := by
  simp only [Char.ofNat, dif_pos h]
  simp [Char.ofNatAux, Char.toNat, UInt32.ofNat', UInt32.toNat]

theorem char_le_iff {a b : Char} : a ≤ b ↔ a.toNat ≤ b.toNat := by
  rw [Char.le_def]
  rfl

theorem lowerChar_idem (c : Char) : lowerChar (lowerChar c) = lowerChar c := by
  unfold lowerChar
  by_cases h : 'A' ≤ c ∧ c ≤ 'Z'
  · rw [if_pos h, if_neg]
    intro h2
    have ha : ('A').toNat = 65 := by decide
    have hz : ('Z').toNat = 90 := by decide
    have h65 : 65 ≤ c.toNat := by
      have := char_le_iff.mp h.1
      omega
    have h90 : c.toNat ≤ 90 := by
      have := char_le_iff.mp h.2
      omega
    have hv : (c.toNat + 32).isValidChar := by
      left
      omega
    have he := toNat_ofNat_valid (c.toNat + 32) hv
    have h3 := char_le_iff.mp h2.2
    omega
  · rw [if_neg h, if_neg h]

theorem pyLower_idem (s : String) : pyLower (pyLower s) = pyLower s := by
  unfold pyLower
  simp only [List.map_map]
  congr 1
  apply List.map_congr_left
  intro a _
  exact lowerChar_idem a

theorem query_insert_of_none {db : List CodeRow} {c c' : String} {m : Int}
    (h : query db c = none) (hcc : pyLower c' = pyLower c) :
    query (insert db c m) c' = some ⟨m, false⟩ := by
  unfold query insert at *
  have hf : db.find? (fun r => r.str == pyLower c) = none := by
    exact Option.map_eq_none'.mp h
  rw [List.find?_append, hcc, hf]
  simp

theorem countKey_insert (db : List CodeRow) (c : String) (m : Int) :
    countKey (insert db c m) (pyLower c) = countKey db (pyLower c) + 1 := by
  unfold countKey insert
  rw [List.countP_append]
  simp [List.countP_cons]

theorem countKey_eq_zero_of_query_none {db : List CodeRow} {c : String}
    (h : query db c = none) : countKey db (pyLower c) = 0 := by
  unfold query at h
  unfold countKey
  have hf : db.find? (fun r => r.str == pyLower c) = none := Option.map_eq_none'.mp h
  rw [List.countP_eq_zero]
  intro r hr
  have := List.find?_eq_none.mp hf r hr
  simpa using this

theorem query_update_self (db : List CodeRow) (c : String) (f : Bool) :
    query (update db c f) c = (query db c).map (fun s => ⟨s.message_id, f⟩) := by
  unfold query update
  induction db with
  | nil => rfl
  | cons r t ih =>
    by_cases hr : r.str == pyLower c
    · simp [List.find?, hr]
    · have hr2 : (r.str == pyLower c) = false := by simpa using hr
      simp [List.find?, hr2]
      simpa using ih


theorem single_passcode_inserts (channel : Int) (st : SysState) (chat : Int) (t : String)
    (hnl : '\n' ∉ t.data) (hlen : t.data.length ≤ 30)
    (hm : passcodeMatch t = true) (habs : query st.code t = none) :
    handle_passcode channel st chat t =
      ({ st with
          code := insert st.code t st.nextMsgId
          history := insert_history st.history t chat
          nextMsgId := st.nextMsgId + 1 },
        [Out.sendChannel channel st.nextMsgId ("<code>" ++ t ++ "</code>"),
         Out.reply chat "Send successful"]) := by
  have hlen2 : ¬ 30 < t.data.length := by omega
  have hm2 : ¬ passcodeMatch t = false := by simp [hm]
  simp only [handle_passcode, handle_single_passcode, if_neg hnl, if_neg hlen2,
    if_neg hm2, habs]

theorem single_passcode_duplicate (channel : Int) (st : SysState) (chat : Int) (t : String)
    (hnl : '\n' ∉ t.data) (hlen : t.data.length ≤ 30)
    (hm : passcodeMatch t = true) (mid : Int) (b : Bool)
    (hdup : query st.code t = some ⟨mid, b⟩) :
    handle_passcode channel st chat t =
      (st, [Out.replyMarkup chat
        ("Passcode exist, " ++ (if b then "undo mark" else "mark passcode") ++ " as FR?")
        [[("Process", (if b then "u" else "m") ++ " " ++ t ++ " " ++ toString mid)]]]) := by
  have hlen2 : ¬ 30 < t.data.length := by omega
  have hm2 : ¬ passcodeMatch t = false := by simp [hm]
  simp only [handle_passcode, handle_single_passcode, if_neg hnl, if_neg hlen2,
    if_neg hm2, hdup]


/-- Claim C1: a valid passcode absent from the store is inserted exactly once
by its first submission, and a second submission of the same text (any
submitting chats) leaves the store untouched and is answered with the
mark/undo-mark toggle offer instead of a second insert. -/
theorem C1_no_second_insert (channel : Int) (st : SysState) (chat1 chat2 : Int)
    (t : String) (hnl : '\n' ∉ t.data) (hlen : t.data.length ≤ 30)
    (hm : passcodeMatch t = true) (habs : query st.code t = none) :
    countKey (handle_passcode channel st chat1 t).1.code (pyLower t) = 1 ∧
    handle_passcode channel (handle_passcode channel st chat1 t).1 chat2 t =
      ((handle_passcode channel st chat1 t).1,
        [Out.replyMarkup chat2 "Passcode exist, mark passcode as FR?"
          [[("Process", "m " ++ t ++ " " ++ toString st.nextMsgId)]]]) := by
  have e1 := single_passcode_inserts channel st chat1 t hnl hlen hm habs
  have hq2 : query (insert st.code t st.nextMsgId) t = some ⟨st.nextMsgId, false⟩ :=
    query_insert_of_none habs rfl
  constructor
  · rw [e1]
    show countKey (insert st.code t st.nextMsgId) (pyLower t) = 1
    rw [countKey_insert, countKey_eq_zero_of_query_none habs]
  · rw [e1]
    have e2 := single_passcode_duplicate channel
      ({ st with
          code := insert st.code t st.nextMsgId
          history := insert_history st.history t chat1
          nextMsgId := st.nextMsgId + 1 })
      chat2 t hnl hlen hm st.nextMsgId false hq2
    simpa using e2

/-- Claim C1 witness at a concrete input. -/
theorem C1_no_second_insert_witness :
    countKey (handle_passcode 0 ⟨[], [], [], [], [], [], 0⟩ 1 "abcde").1.code
        (pyLower "abcde") = 1 ∧
    handle_passcode 0 (handle_passcode 0 ⟨[], [], [], [], [], [], 0⟩ 1 "abcde").1 2 "abcde" =
      ((handle_passcode 0 ⟨[], [], [], [], [], [], 0⟩ 1 "abcde").1,
        [Out.replyMarkup 2 "Passcode exist, mark passcode as FR?"
          [[("Process", "m " ++ "abcde" ++ " " ++ toString (0 : Int))]]]) :=
  C1_no_second_insert 0 ⟨[], [], [], [], [], [], 0⟩ 1 2 "abcde"
    (by decide) (by decide) (by decide) (by decide)


/-- Claim C5: a single-line text over the 30-character cap or failing the
^\w{5,35}$ pattern changes no state and draws the corresponding error reply,
with the length check first; in the multi-line loop, a non-comment line over
35 characters or failing the pattern changes nothing but the error list. -/
theorem C5_validation_no_mutation (channel : Int) (st : SysState) (chat : Int)
    (t : String) (hnl : '\n' ∉ t.data)
    (hbad : 30 < t.data.length ∨ passcodeMatch t = false) :
    handle_passcode channel st chat t =
      (st, [Out.reply chat
        (if 30 < t.data.length then "Passcode length exceed" else "Passcode format error")]) ∧
    ∀ acc ℓ, ℓ ≠ "" → startsWithChar ℓ '#' = false →
      35 < ℓ.data.length ∨ passcodeMatch ℓ = false →
      ml_step chat channel acc ℓ = { acc with error_codes := acc.error_codes ++ [ℓ] } := by
  constructor
  · by_cases hl : 30 < t.data.length
    · simp only [handle_passcode, handle_single_passcode, if_neg hnl, if_pos hl, if_pos hl]
    · have hp : passcodeMatch t = false := hbad.resolve_left hl
      simp only [handle_passcode, handle_single_passcode, if_neg hnl, if_neg hl, hp,
        if_true]
  · intro acc l hne hsh hb
    have h1 : (l = "" || startsWithChar l '#') = false := by
      simp [hne, hsh]
    have h2 : (35 < l.data.length || passcodeMatch l = false) = true := by
      simp only [Bool.or_eq_true, decide_eq_true_eq]
      exact hb
    simp only [ml_step, h1, Bool.false_eq_true, if_false, h2, if_true]

/-- Claim C5 witness at concrete inputs. -/
theorem C5_validation_no_mutation_witness :
    (handle_passcode 0 ⟨[], [], [], [], [], [], 0⟩ 1 "bad!" =
      (⟨[], [], [], [], [], [], 0⟩, [Out.reply 1
        (if 30 < "bad!".data.length then "Passcode length exceed" else "Passcode format error")]) ∧
    ∀ acc ℓ, ℓ ≠ "" → startsWithChar ℓ '#' = false →
      35 < ℓ.data.length ∨ passcodeMatch ℓ = false →
      ml_step 1 0 acc ℓ = { acc with error_codes := acc.error_codes ++ [ℓ] }) :=
  C5_validation_no_mutation 0 ⟨[], [], [], [], [], [], 0⟩ 1 "bad!"
    (by decide) (Or.inr (by decide))


/-- Claim C7: lookups and inserts address the lower-cased key, so querying a
code equals querying its lower-cased form, and after inserting an absent code
any case variant of it is found. -/
theorem C7_case_normalization (db : List CodeRow) (c cv : String) (m : Int)
    (hcase : pyLower cv = pyLower c) :
    query db c = query db (pyLower c) ∧
    (query db c = none → query (insert db c m) cv = some ⟨m, false⟩) := by
  constructor
  · unfold query
    rw [pyLower_idem]
  · intro h
    exact query_insert_of_none h hcase

/-- Claim C7 witness at a concrete input. -/
theorem C7_case_normalization_witness :
    (query [] "ABCDE" = query [] (pyLower "ABCDE") ∧
      (query [] "ABCDE" = none →
        query (insert [] "ABCDE" 3) "abcde" = some ⟨3, false⟩)) :=
  C7_case_normalization [] "ABCDE" "abcde" 3 (by decide)

/-- Claim C9 under its correction: the single-line path appends a history
entry exactly when the submitted code is not yet stored, and a valid
non-comment line of the multi-line loop does the same; re-submissions of a
stored code leave history unchanged. -/
theorem C9_history_only_on_new (channel : Int) (st : SysState) (chat : Int)
    (t : String) (hnl : '\n' ∉ t.data) (hlen : t.data.length ≤ 30)
    (hm : passcodeMatch t = true) :
    (handle_passcode channel st chat t).1.history =
      (if query st.code t = none then insert_history st.history t chat else st.history) ∧
    ∀ acc ℓ, ℓ ≠ "" → startsWithChar ℓ '#' = false → ℓ.data.length ≤ 35 →
      passcodeMatch ℓ = true →
      (ml_step chat channel acc ℓ).st.history =
        (if query acc.st.code ℓ = none then insert_history acc.st.history ℓ chat
          else acc.st.history) := by
  constructor
  · match hq : query st.code t with
    | none =>
      rw [single_passcode_inserts channel st chat t hnl hlen hm hq, if_pos rfl]
    | some r =>
      rw [single_passcode_duplicate channel st chat t hnl hlen hm r.message_id r.FR
        (by rw [hq])]
      simp
  · intro acc l hne hsh hb hp
    have h1 : (l = "" || startsWithChar l '#') = false := by
      simp [hne, hsh]
    have h2 : (35 < l.data.length || passcodeMatch l = false) = false := by
      simp only [Bool.or_eq_false_iff, decide_eq_false_iff_not]
      constructor
      · omega
      · simp [hp]
    match hq : query acc.st.code l with
    | none =>
      simp only [ml_step, h1, Bool.false_eq_true, if_false, h2, hq]
      simp
    | some r =>
      simp only [ml_step, h1, Bool.false_eq_true, if_false, h2, hq]
      simp


/-- Claim C9 witness at concrete inputs. -/
theorem C9_history_only_on_new_witness :
    ((handle_passcode 0 ⟨[⟨"abcde", 5, false⟩], [], [], [], [], [], 6⟩ 7 "abcde").1.history =
      (if query [⟨"abcde", 5, false⟩] "abcde" = none
        then insert_history [] "abcde" 7 else []) ∧
    ∀ acc ℓ, ℓ ≠ "" → startsWithChar ℓ '#' = false → ℓ.data.length ≤ 35 →
      passcodeMatch ℓ = true →
      (ml_step 7 0 acc ℓ).st.history =
        (if query acc.st.code ℓ = none then insert_history acc.st.history ℓ 7
          else acc.st.history)) :=
  C9_history_only_on_new 0 ⟨[⟨"abcde", 5, false⟩], [], [], [], [], [], 6⟩ 7 "abcde"
    (by decide) (by decide) (by decide)

/-- Claim C9 counterexample: the code "abcde" is already stored, a fresh
submission of it is processed, and the history table stays empty, so a
history entry is not appended for every submission. -/
theorem C9_history_counterexample :
    (query [⟨"abcde", 5, false⟩] "abcde").isSome = true ∧
    (handle_passcode 0 ⟨[⟨"abcde", 5, false⟩], [], [], [], [], [], 6⟩ 7 "abcde").1.history
      = [] := by
  decide

/-- Claim C6: the spec scenario for a multi-line batch, evaluated on an empty
store: the comment and blank lines are skipped, validcode1 is broadcast once
and inserted, its in-batch repeat is classified as a duplicate, badcode! as an
error, and the single summary reports one success. -/
theorem C6_multiline_batch :
    handle_passcode (-100) ⟨[], [], [], [], [], [], 0⟩ 7
        "#comment\nvalidcode1\n\nvalidcode1\nbadcode!" =
      (⟨[⟨"validcode1", 0, false⟩], [("validcode1", 7)], [], [], [], [], 1⟩,
        [Out.reply 7 "Sending passcode (interval: 2s)",
         Out.sendChannel (-100) 0 "<code>validcode1</code>",
         Out.editStatus
           "Error codes:\n<code>badcode!</code>\n\nDuplicate codes:\n<code>validcode1</code>\n\nSuccess send: 1 passcode(s)"]) := by
  decide

/-- Claim C2: evaluation of delete_user_manual at the failing input: user 123
is authorized and the admin issues the /del command with exactly one
argument, yet the handler mutates nothing and sends no reply, because its
body is guarded by len(msg.command) != 2. -/
theorem C2_del_command_eval :
    query_authorized_user ⟨[], [], [123], [123], [], [], 0⟩ 123 = true ∧
    delete_user_manual ⟨[], [], [123], [123], [], [], 0⟩ 1 ["del", "123"] =
      some (⟨[], [], [123], [123], [], [], 0⟩, []) := by
  decide

/-- Claim C4: evaluation of query_history at the failing input: /h with zero
arguments reaches the tuple unpacking and raises instead of replying with the
format error; with two arguments the format error is produced and with one
argument the prefix lookup works. -/
theorem C4_history_command_eval :
    query_history_cmd ⟨[], [("code123", 5)], [], [], [], [], 0⟩ 1 ["h"] = none ∧
    query_history_cmd ⟨[], [("code123", 5)], [], [], [], [], 0⟩ 1 ["h", "a", "b"] =
      some (⟨[], [("code123", 5)], [], [], [], [], 0⟩,
        [Out.reply 1 "Query format error."]) ∧
    query_history_cmd ⟨[], [("code123", 5)], [], [], [], [], 0⟩ 1 ["h", "cod"] =
      some (⟨[], [("code123", 5)], [], [], [], [], 0⟩,
        [Out.reply 1 "Find match => 5"]) := by
  decide


/-- Claim C3 counterexample: owner presses grant for user 42 who is already
authorized; the handler answers Already granted and nevertheless sends the
Access granted notification to user 42. -/
theorem C3_grant_counterexample :
    query_authorized_user ⟨[], [], [42], [42], [], [], 0⟩ 42 = true ∧
    handle_callback_query 0 ⟨[], [], [42], [42], [], [], 0⟩ "account grant 42" =
      some (⟨[], [], [42], [42], [], [], 0⟩,
        [Out.editMarkup [[("Revoke", "account revoke 42")]],
         Out.answer (some "Already granted"),
         Out.sendUser 42 "Access granted"]) ∧
    Out.sendUser 42 "Access granted" ∈
      ((handle_callback_query 0 ⟨[], [], [42], [42], [], [], 0⟩
        "account grant 42").map Prod.snd).getD [] := by
  decide

/-- Claim C3 under its correction: a grant callback for an already-authorized
user changes no state and answers Already granted, but still sends the
Access granted notification to the target on every grant press, not only on
an actual transition. -/
theorem C3_grant_already_authorized (channel : Int) (st : SysState) (uid : Int)
    (s : String) (data : String)
    (hw : splitWords data = ["account", "grant", s])
    (hs : pyInt s = some uid)
    (h : uid ∈ st.authorized) :
    handle_callback_query channel st data =
      some (st,
        [Out.editMarkup [[("Revoke", "account revoke " ++ toString uid)]],
         Out.answer (some "Already granted"),
         Out.sendUser uid "Access granted"]) := by
  have hg : query_authorized_user st uid = true := by
    unfold query_authorized_user
    exact decide_eq_true h
  unfold handle_callback_query
  rw [hw]
  simp [hs, hg]

/-- Claim C3 witness at a concrete input. -/
theorem C3_grant_already_authorized_witness :
    handle_callback_query 0 ⟨[], [], [], [42], [], [], 0⟩ "account grant 42" =
      some (⟨[], [], [], [42], [], [], 0⟩,
        [Out.editMarkup [[("Revoke", "account revoke " ++ toString (42 : Int))]],
         Out.answer (some "Already granted"),
         Out.sendUser 42 "Access granted"]) :=
  C3_grant_already_authorized 0 ⟨[], [], [], [42], [], [], 0⟩ 42 "42" "account grant 42"
    (by decide) (by decide) (by decide)


/-- Claim C8: the toggle offered on a stored code always branches on the
current fr flag (u when set, m when clear); pressing the offered action and
then the action offered on the resulting flag returns the flag to its
original value, and the second broadcast-post edit restores the formatting
that corresponds to the original flag (struck-through when fully redeemed,
plain code markup otherwise). -/
theorem C8_toggle_involution (channel : Int) (st : SysState) (t : String)
    (mid : Int) (b : Bool) (hq : query st.code t = some ⟨mid, b⟩)
    (d1 d2 : String)
    (h1 : splitWords d1 = [(if b then "u" else "m"), t, toString mid])
    (h2 : splitWords d2 = [(if !b then "u" else "m"), t, toString mid])
    (hmid : pyInt (toString mid) = some mid) :
    handle_callback_query channel st d1 =
      some ({ st with code := update st.code t (!b) },
        [Out.editChannel channel mid
          (if b then "<code>" ++ t ++ "</code>" else "<del>" ++ t ++ "</del>"),
         Out.editMarkup [], Out.answer none]) ∧
    query (update st.code t (!b)) t = some ⟨mid, !b⟩ ∧
    handle_callback_query channel { st with code := update st.code t (!b) } d2 =
      some ({ st with code := update (update st.code t (!b)) t b },
        [Out.editChannel channel mid
          (if b then "<del>" ++ t ++ "</del>" else "<code>" ++ t ++ "</code>"),
         Out.editMarkup [], Out.answer none]) ∧
    query (update (update st.code t (!b)) t b) t = query st.code t := by
  have hq1 : query (update st.code t (!b)) t = some ⟨mid, !b⟩ := by
    rw [query_update_self, hq]
    rfl
  have hq2 : query (update (update st.code t (!b)) t b) t = some ⟨mid, b⟩ := by
    rw [query_update_self, hq1]
    rfl
  refine ⟨?_, hq1, ?_, by rw [hq2, hq]⟩
  · cases b
    · unfold handle_callback_query
      rw [h1]
      simp [hmid]
    · unfold handle_callback_query
      rw [h1]
      simp [hmid]
  · cases b
    · unfold handle_callback_query
      rw [h2]
      simp [hmid]
    · unfold handle_callback_query
      rw [h2]
      simp [hmid]

/-- Claim C8 witness at a concrete input. -/
theorem C8_toggle_involution_witness :
    (handle_callback_query 0 ⟨[⟨"abcde", 5, false⟩], [], [], [], [], [], 6⟩ "m abcde 5" =
      some ({ (⟨[⟨"abcde", 5, false⟩], [], [], [], [], [], 6⟩ : SysState) with
          code := update [⟨"abcde", 5, false⟩] "abcde" (!false) },
        [Out.editChannel 0 5 ("<del>" ++ "abcde" ++ "</del>"),
         Out.editMarkup [], Out.answer none]) ∧
    query (update [⟨"abcde", 5, false⟩] "abcde" (!false)) "abcde" = some ⟨5, !false⟩ ∧
    handle_callback_query 0
        { (⟨[⟨"abcde", 5, false⟩], [], [], [], [], [], 6⟩ : SysState) with
          code := update [⟨"abcde", 5, false⟩] "abcde" (!false) } "u abcde 5" =
      some ({ (⟨[⟨"abcde", 5, false⟩], [], [], [], [], [], 6⟩ : SysState) with
          code := update (update [⟨"abcde", 5, false⟩] "abcde" (!false)) "abcde" false },
        [Out.editChannel 0 5 ("<code>" ++ "abcde" ++ "</code>"),
         Out.editMarkup [], Out.answer none]) ∧
    query (update (update [⟨"abcde", 5, false⟩] "abcde" (!false)) "abcde" false) "abcde" =
      query [⟨"abcde", 5, false⟩] "abcde") :=
  C8_toggle_involution 0 ⟨[⟨"abcde", 5, false⟩], [], [], [], [], [], 6⟩ "abcde" 5 false
    (by decide) "m abcde 5" "u abcde 5" (by decide) (by decide) (by decide)


/-- Claim C10: an /auth request finding no live flood key arms the flood
guard with a 1200-second expiry before the authorization check, hence in
every branch whatever the cache state and arguments; and while the guard is
live an /auth request is dropped with no reply, no state change and no
change to the expiry. -/
theorem C10_flood_guard (pw : String) (st : SysState) (now : Nat) (chat : Int)
    (command : List String) :
    (flood_active st now chat = false →
      (handle_auth pw st now chat command).1.flood.lookup chat = some (now + 1200)) ∧
    (flood_active st now chat = true →
      handle_auth pw st now chat command = (st, [])) := by
  constructor
  · intro h
    have hflood : ∀ s : SysState,
        s.flood = (chat, now + 1200) :: st.flood.filter (fun p => p.1 ≠ chat) →
        s.flood.lookup chat = some (now + 1200) := by
      intro s hs
      rw [hs]
      simp [List.lookup]
    unfold handle_auth flood_check
    rw [h]
    simp only [Bool.false_eq_true, if_false]
    split
    · exact hflood _ rfl
    · split
      · exact hflood _ rfl
      · split
        · split
          · exact hflood _ rfl
          · exact hflood _ rfl
        · exact hflood _ rfl
  · intro h
    unfold handle_auth flood_check
    rw [h]
    simp

/-- Claim C10 witness at concrete inputs: an idle user gets the guard armed,
a guarded user is silently dropped. -/
theorem C10_flood_guard_witness :
    (handle_auth "pw" ⟨[], [], [], [], [], [], 0⟩ 0 7 ["auth"]).1.flood.lookup 7 =
      some (0 + 1200) ∧
    handle_auth "pw" ⟨[], [], [], [], [(7, 100)], [], 0⟩ 0 7 ["auth"] =
      (⟨[], [], [], [], [(7, 100)], [], 0⟩, []) :=
  ⟨(C10_flood_guard "pw" ⟨[], [], [], [], [], [], 0⟩ 0 7 ["auth"]).1 (by decide),
   (C10_flood_guard "pw" ⟨[], [], [], [], [(7, 100)], [], 0⟩ 0 7 ["auth"]).2 (by decide)⟩

end Forwarder
